import Mathlib

/-!
Verification development for the trading pipeline of `rig-solana-trader`
(strategy module: decision synthesis, risk scoring, technical analysis,
execution engine, position monitoring, performance analytics).

Modelling conventions:
* Rust `f64` values are modelled as exact rationals (`ℚ`).  The arithmetic in
  the audited functions is plain `+ - * /`, `min`, `max` and comparisons, which
  agree with real arithmetic away from overflow/NaN; places where the `f64`
  behaviour could differ (division by zero) are noted next to the definition.
* `serde_json::Value` is modelled by the inductive `Json` below, together with
  the indexing (`value["key"]`, null-propagating) and `as_f64`/`as_str`/
  `as_bool`/`as_u64`/`as_array` accessors used by the source.
* Fallible Rust functions (`Result`) become `Except String`; the `?` operator
  becomes error propagation.
* Wall-clock quantities (timestamps, sleeps, `execution_time`) are irrelevant
  to every audited property; timestamps are taken as explicit parameters and
  sleep calls are dropped.
* Network collaborators (the Jupiter venue) are modelled as an explicit
  environment (`Venue`) handing the code the outcome of each quote/swap call.
-/

namespace RigSolanaTrader

/-- Model of `serde_json::Value` (keys of objects are ordered, as parsed). -/
inductive Json where
  | null : Json
  | bool : Bool → Json
  | num : ℚ → Json
  | str : String → Json
  | arr : List Json → Json
  | obj : List (String × Json) → Json

/-- Model of `value["key"]`: field of an object, `Null` when the key is absent
or the value is not an object (serde_json index semantics). -/
def Json.get (j : Json) (key : String) : Json :=
  match j with
  | .obj fields => ((fields.find? (fun p => p.1 = key)).map (fun p => p.2)).getD .null
  | _ => .null

/-- Model of `Value::as_f64`. -/
def Json.asF64 : Json → Option ℚ
  | .num q => some q
  | _ => none

/-- Model of `Value::as_str`. -/
def Json.asStr : Json → Option String
  | .str s => some s
  | _ => none

/-- Model of `Value::as_bool`. -/
def Json.asBool : Json → Option Bool
  | .bool b => some b
  | _ => none

/-- Model of `Value::as_u64`: defined on non-negative integral numbers. -/
def Json.asU64 : Json → Option ℕ
  | .num q => if q.den = 1 ∧ 0 ≤ q.num then some q.num.toNat else none
  | _ => none

/-- Model of `Value::as_array`. -/
def Json.asArray : Json → Option (List Json)
  | .arr xs => some xs
  | _ => none

/-! ## Data model (`strategy/mod.rs`) -/

/-- `StrategyConfig` from `strategy/mod.rs`. -/
structure StrategyConfig where
  max_position_sol : ℚ
  min_position_sol : ℚ
  max_tokens : ℕ
  min_confidence : ℚ
  min_liquidity_usd : ℚ
  max_slippage : ℚ
deriving DecidableEq

/-- `TradeAction` from `strategy/mod.rs`. -/
inductive TradeAction where
  | Buy : TradeAction
  | Sell : TradeAction
  | Hold : TradeAction
deriving DecidableEq

/-- `TechnicalSignals` from `strategy/mod.rs`. -/
structure TechnicalSignals where
  trend_strength : ℚ
  momentum_score : ℚ
  volatility_score : ℚ
  support_resistance : List ℚ
  signal_type : String
  timeframe : String
deriving DecidableEq

/-- `MarketContext` from `strategy/mod.rs`. -/
structure MarketContext where
  market_trend : String
  sector_performance : ℚ
  liquidity_score : ℚ
  volume_profile : String
  sentiment_score : ℚ
deriving DecidableEq

/-- `DCAConfig` from `strategy/mod.rs` (`num_entries`, `time_between_entries`
are `u32` in the source; sizes here are unbounded naturals, no audited code
path exercises the 2^32 wrap). -/
structure DCAConfig where
  num_entries : ℕ
  time_between_entries : ℕ
  size_per_entry : ℚ
deriving DecidableEq

/-- `ExecutionParams` from `strategy/mod.rs`. -/
structure ExecutionParams where
  entry_type : String
  time_horizon : String
  stop_loss : ℚ
  take_profit : List ℚ
  max_slippage : ℚ
  dca_config : Option DCAConfig
deriving DecidableEq

/-- `TradingDecision` from `strategy/mod.rs`. -/
structure TradingDecision where
  token_address : String
  action : TradeAction
  size_in_sol : ℚ
  confidence : ℚ
  reasoning : String
  risk_score : ℚ
  technical_signals : TechnicalSignals
  market_context : MarketContext
  execution_params : ExecutionParams
deriving DecidableEq

/-! ## DecisionSynthesizer (`strategy/mod.rs`) -/

/-- `TradingStrategy::calculate_position_size` (`strategy/mod.rs`).
Note the result is already clamped to `[min_position_sol, max_position_sol]`
here, before the caller applies the liquidity/momentum multipliers.
Rust `x.max(a).min(b)` is `min (max x a) b`. -/
def calculate_position_size (cfg : StrategyConfig) (risk_score trend_strength : ℚ) : ℚ :=
  let base_size := cfg.max_position_sol * 0.2
  let risk_multiplier := 1.0 - risk_score
  let trend_multiplier := trend_strength
  min (max (base_size * risk_multiplier * trend_multiplier) cfg.min_position_sol)
    cfg.max_position_sol

/-- `TradingStrategy::generate_execution_params` (`strategy/mod.rs`).
The Rust function returns `Result` but never errs; it is embedded as total. -/
def generate_execution_params (cfg : StrategyConfig) (signals : TechnicalSignals)
    (risk_score : ℚ) (execution_strategy : Json) : ExecutionParams :=
  let stop_loss :=
    match (execution_strategy.get "stop_loss_pct").asF64 with
    | some sl => sl
    | none => if risk_score > 0.7 then 0.05 else 0.1
  let take_profits :=
    match (execution_strategy.get "take_profit_levels").asArray with
    | some tp_array => tp_array.filterMap (fun tp => (tp.get "price_target").asF64)
    | none => [0.1, 0.2, 0.3]
  let dca_config :=
    if (((execution_strategy.get "dca_strategy").get "should_dca").asBool).getD false then
      some { num_entries := (((execution_strategy.get "dca_strategy").get "num_entries").asU64).getD 3
             time_between_entries :=
               (((execution_strategy.get "dca_strategy").get "interval_hours").asU64).getD 24
             size_per_entry := ((execution_strategy.get "position_size_sol").asF64).getD 0.1 }
    else
      none
  { entry_type := ((execution_strategy.get "entry_type").asStr).getD "Market"
    time_horizon := signals.timeframe
    stop_loss := stop_loss
    take_profit := take_profits
    max_slippage := cfg.max_slippage
    dca_config := dca_config }

/-- Oracle confidence as extracted by `make_decision`:
`analysis["confidence"].as_f64().unwrap_or(0.0)`. -/
def oracleConfidence (analysis : Json) : ℚ :=
  ((analysis.get "confidence").asF64).getD 0.0

/-- Oracle momentum label as extracted by `make_decision`:
`analysis["market_analysis"]["momentum_indicators"]["overall_momentum"]`,
defaulting to "neutral". -/
def oracleMomentum (analysis : Json) : String :=
  ((((analysis.get "market_analysis").get "momentum_indicators").get
    "overall_momentum").asStr).getD "neutral"

/-- Oracle liquidity score as extracted by `make_decision`:
`analysis["market_analysis"]["liquidity_assessment"]["liquidity_score"]`,
defaulting to 0.0. -/
def oracleLiquidity (analysis : Json) : ℚ :=
  ((((analysis.get "market_analysis").get "liquidity_assessment").get
    "liquidity_score").asF64).getD 0.0

/-- Oracle smart-money-flow label as extracted by `make_decision`:
`analysis["market_analysis"]["on_chain_metrics"]["smart_money_flow"]`,
defaulting to "neutral". -/
def oracleSmartMoneyFlow (analysis : Json) : String :=
  ((((analysis.get "market_analysis").get "on_chain_metrics").get
    "smart_money_flow").asStr).getD "neutral"

/-- The action synthesis of `make_decision` (`strategy/mod.rs`, the
`let action = if .. {Buy} else if .. {Sell} else {Hold}` chain on the
extracted oracle fields and the risk score). -/
def decide_action (cfg : StrategyConfig) (risk_score : ℚ) (analysis : Json) :
    TradeAction :=
  let confidence := oracleConfidence analysis
  let momentum := oracleMomentum analysis
  let liquidity_score := oracleLiquidity analysis
  let smart_money_flow := oracleSmartMoneyFlow analysis
  if confidence ≥ cfg.min_confidence
      ∧ liquidity_score ≥ 0.7
      ∧ risk_score ≤ 0.3
      ∧ (momentum = "strong_buy" ∨ momentum = "buy")
      ∧ smart_money_flow = "inflow" then
    TradeAction.Buy
  else if risk_score > 0.7
      ∨ momentum = "strong_sell"
      ∨ smart_money_flow = "outflow" then
    TradeAction.Sell
  else
    TradeAction.Hold

/-- The position-size synthesis of `make_decision` (`strategy/mod.rs`):
`base_size`, the liquidity and momentum multipliers, and the final clamp.
NB: the second argument of `calculate_position_size` is named
`trend_strength` in its signature, but the call site passes the oracle
`confidence`, and `calculate_position_size` already clamps its result to
`[min_position_sol, max_position_sol]` before this second, final clamp. -/
def decide_size (cfg : StrategyConfig) (risk_score : ℚ) (analysis : Json) : ℚ :=
  let confidence := oracleConfidence analysis
  let momentum := oracleMomentum analysis
  let liquidity_score := oracleLiquidity analysis
  let base_size := calculate_position_size cfg risk_score confidence
  let liquidity_multiplier := min (liquidity_score * 1.5) 1.0
  let momentum_multiplier :=
    if momentum = "strong_buy" then 1.0
    else if momentum = "buy" then 0.8
    else if momentum = "neutral" then 0.5
    else 0.3
  min (max (base_size * liquidity_multiplier * momentum_multiplier)
    cfg.min_position_sol) cfg.max_position_sol

/-- `TradingStrategy::make_decision` (`strategy/mod.rs`).
The first Rust line is `serde_json::from_str(&llm_analysis)?`; the outcome of
that library parse is taken here as the `parsed` argument, and the `?` becomes
error propagation: a malformed oracle response makes the whole call fail. -/
def make_decision (cfg : StrategyConfig) (token_address : String)
    (parsed : Except String Json) (risk_score : ℚ)
    (technical_signals : TechnicalSignals) (market_context : MarketContext) :
    Except String TradingDecision :=
  match parsed with
  | .error e => .error e
  | .ok analysis =>
    .ok { token_address := token_address
          action := decide_action cfg risk_score analysis
          size_in_sol := decide_size cfg risk_score analysis
          confidence := oracleConfidence analysis
          reasoning := ((analysis.get "reasoning").asStr).getD ""
          risk_score := risk_score
          technical_signals := technical_signals
          market_context := market_context
          execution_params :=
            generate_execution_params cfg technical_signals risk_score
              (analysis.get "execution_strategy") }

/-! ## TechnicalAnalyzer (`strategy/technical.rs`) -/

/-- `TrendDirection` from `strategy/technical.rs`. -/
inductive TrendDirection where
  | Strong_Up : TrendDirection
  | Up : TrendDirection
  | Sideways : TrendDirection
  | Down : TrendDirection
  | Strong_Down : TrendDirection
deriving DecidableEq

/-- `RSISignal` from `strategy/technical.rs`. -/
inductive RSISignal where
  | Overbought : RSISignal
  | Bullish : RSISignal
  | Neutral : RSISignal
  | Bearish : RSISignal
  | Oversold : RSISignal
deriving DecidableEq

/-- `MACDSignal` from `strategy/technical.rs`. -/
inductive MACDSignal where
  | StrongBuy : MACDSignal
  | Buy : MACDSignal
  | Neutral : MACDSignal
  | Sell : MACDSignal
  | StrongSell : MACDSignal
deriving DecidableEq

/-- `TechnicalAnalysis` from `strategy/technical.rs` (the signal record carrying
`support_levels`, which `risk.rs` reads). -/
structure TechnicalAnalysis where
  trend_direction : TrendDirection
  trend_strength : ℚ
  support_levels : List ℚ
  resistance_levels : List ℚ
  rsi_signal : RSISignal
  macd_signal : MACDSignal
  volatility_score : ℚ
deriving DecidableEq

/-- The sliding-window size of `find_support_resistance` (`window_size = 20`). -/
def windowSize : ℕ := 20

/-- The 2% outward offset of `find_support_resistance` (`threshold = 0.02`). -/
def srThreshold : ℚ := 0.02

/-- Minimum of a nonempty price slice.  The Rust source folds `f64::min` from
`f64::INFINITY`; in every loop iteration of `find_support_resistance` the slice
is nonempty (left window: 20 samples, right window: 19 samples), where the fold
from infinity equals the slice minimum.  The `[]` case is unreachable there. -/
def sliceMin : List ℚ → ℚ
  | [] => 0
  | x :: xs => xs.foldl min x

/-- Maximum of a nonempty price slice (Rust folds `f64::max` from
`f64::NEG_INFINITY`); see `sliceMin` for the nonemptiness remark. -/
def sliceMax : List ℚ → ℚ
  | [] => 0
  | x :: xs => xs.foldl max x

/-- Body of the `find_support_resistance` loop at index `i`, accumulating the
deduplicated support and resistance lists. -/
def srStep (prices : List ℚ) (acc : List ℚ × List ℚ) (i : ℕ) : List ℚ × List ℚ :=
  let current := prices.getD i 0
  let left_min := sliceMin ((prices.drop (i - windowSize)).take windowSize)
  let right_min := sliceMin ((prices.drop (i + 1)).take (windowSize - 1))
  let left_max := sliceMax ((prices.drop (i - windowSize)).take windowSize)
  let right_max := sliceMax ((prices.drop (i + 1)).take (windowSize - 1))
  let support :=
    if current < left_min ∧ current < right_min then
      let price := current * (1 - srThreshold)
      if price ∈ acc.1 then acc.1 else acc.1 ++ [price]
    else acc.1
  let resistance :=
    if current > left_max ∧ current > right_max then
      let price := current * (1 + srThreshold)
      if price ∈ acc.2 then acc.2 else acc.2 ++ [price]
    else acc.2
  (support, resistance)

/-- `TechnicalAnalyzer::find_support_resistance` (`strategy/technical.rs`).

The Rust loop is `for i in window_size..self.price_history.len() - window_size`
over a `usize` length.  When `len < window_size` the subtraction
`len - window_size` wraps around (debug builds abort on the overflow; release
builds wrap, upon which the first loop iteration indexes
`self.price_history[20]` out of bounds) — either way the call panics.  The
panic is modelled as `none`.  When `len ≥ window_size` the loop runs over
`i ∈ [window_size, len - window_size)` (`len - 2·window_size` iterations, zero
when `len ≤ 40`), every slice access in bounds, and both result lists are
sorted ascending (`sort_by partial_cmp`). -/
def find_support_resistance (prices : List ℚ) : Option (List ℚ × List ℚ) :=
  if prices.length < windowSize then
    none
  else
    let indices := List.range' windowSize (prices.length - windowSize - windowSize)
    let (support, resistance) := indices.foldl (srStep prices) ([], [])
    some (support.insertionSort (· ≤ ·), resistance.insertionSort (· ≤ ·))

/-- The price series of the unit test `test_technical_analysis` in
`strategy/technical.rs` (ten samples). -/
def testPrices : List ℚ :=
  [10.0, 11.0, 10.5, 11.5, 12.0, 11.8, 11.9, 12.1, 12.3, 12.2]

/-! ## RiskManager (`strategy/risk.rs`) -/

/-- The fields of `EnhancedTokenMetadata` (`market_data`) read by the audited
risk functions: the token address, symbol and USD price. -/
structure EnhancedTokenMetadata where
  address : String
  symbol : String
  price_usd : Option ℚ
deriving DecidableEq

/-- `VolatilityRating` from `strategy/risk.rs`. -/
inductive VolatilityRating where
  | VeryLow : VolatilityRating
  | Low : VolatilityRating
  | Medium : VolatilityRating
  | High : VolatilityRating
  | VeryHigh : VolatilityRating
deriving DecidableEq

/-- `MarketRiskLevel` from `strategy/risk.rs`. -/
inductive MarketRiskLevel where
  | Low : MarketRiskLevel
  | Moderate : MarketRiskLevel
  | High : MarketRiskLevel
  | Extreme : MarketRiskLevel
deriving DecidableEq

/-- `RiskAssessment` from `strategy/risk.rs`. -/
structure RiskAssessment where
  risk_score : ℚ
  max_position_size : ℚ
  stop_loss_price : Option ℚ
  risk_factors : List String
  volatility_rating : VolatilityRating
  market_risk_level : MarketRiskLevel
  concentration_risk : ℚ
deriving DecidableEq

/-- The state of `RiskManager` (`strategy/risk.rs`) read by the audited
functions.  `position_limits` is a `HashMap<String, f64>`; the source reads it
with `.get(addr).unwrap_or(&0.0)`, modelled as a total function that is `0`
off the recorded keys.  (The `personality` field and the unused bound fields
`max_drawdown`, `min_liquidity_ratio` play no role in any audited function.) -/
structure RiskManager where
  config : StrategyConfig
  max_position_per_token : ℚ
  portfolio_value : ℚ
  position_limits : String → ℚ
  market_exposure : ℚ

/-- `RiskManager::calculate_volatility_risk` (`strategy/risk.rs`).
Rust `x.min(1.0).max(0.0)` is `max (min x 1) 0`. -/
def calculate_volatility_risk (signals : TechnicalAnalysis) : ℚ :=
  let volatility_score := signals.volatility_score
  let trend_strength := signals.trend_strength
  let adjusted_risk := volatility_score * (1.0 - trend_strength * 0.3)
  max (min adjusted_risk 1.0) 0.0

/-- `RiskManager::calculate_liquidity_risk` (`strategy/risk.rs`). -/
def calculate_liquidity_risk (context : MarketContext) : ℚ :=
  let liquidity_score := context.liquidity_score
  let min_acceptable_liquidity : ℚ := 0.3
  if liquidity_score < min_acceptable_liquidity then
    1.0
  else
    max (min ((1.0 - liquidity_score) * 1.5) 1.0) 0.0

/-- `RiskManager::calculate_market_risk` (`strategy/risk.rs`). -/
def calculate_market_risk (context : MarketContext) : ℚ :=
  let base_risk : ℚ :=
    if context.market_trend = "strong_uptrend" then 0.2
    else if context.market_trend = "uptrend" then 0.3
    else if context.market_trend = "sideways" then 0.5
    else if context.market_trend = "downtrend" then 0.7
    else if context.market_trend = "strong_downtrend" then 0.8
    else 0.5
  let sector_adjustment := (1.0 - context.sector_performance) * 0.2
  max (min (base_risk + sector_adjustment) 1.0) 0.0

/-- `RiskManager::calculate_concentration_risk` (`strategy/risk.rs`).
Rational division by zero is `0`, so a zero `portfolio_value` yields `0` here;
the `f64` source produces NaN/∞ there, which `.min(1.0).max(0.0)` maps to `1.0`.
No audited claim evaluates this function at `portfolio_value = 0`. -/
def calculate_concentration_risk (rm : RiskManager) (token_address : String) : ℚ :=
  let current_exposure := rm.position_limits token_address
  let max_concentration : ℚ := 0.2
  max (min (current_exposure / (rm.portfolio_value * max_concentration)) 1.0) 0.0

/-- `RiskManager::calculate_max_position_size` (`strategy/risk.rs`). -/
def calculate_max_position_size (rm : RiskManager) (risk_score : ℚ) : ℚ :=
  let base_size := rm.portfolio_value * 0.1
  let risk_adjustment := 1.0 - risk_score
  base_size * risk_adjustment * (1.0 - rm.market_exposure)

/-- `RiskManager::calculate_stop_loss` (`strategy/risk.rs`).
The source comment says to use the nearest support level, but it reads
`signals.support_levels.first()` — the head of a list that
`find_support_resistance` sorts ascending, i.e. the lowest (farthest) level. -/
def calculate_stop_loss (token : EnhancedTokenMetadata)
    (signals : TechnicalAnalysis) : Option ℚ :=
  match signals.support_levels.head? with
  | some support =>
    let current_price := token.price_usd.getD 0
    let stop_distance := (current_price - support) / current_price
    if stop_distance > 0.02 ∧ stop_distance < 0.15 then
      some support
    else
      let atr := signals.volatility_score * current_price
      some (current_price - 2.0 * atr)
  | none => none

/-- `RiskManager::assess_risk` (`strategy/risk.rs`).  The Rust function is
`async` and returns `Result`, but never errs and never awaits a fallible
operation; it is embedded as a total function. -/
def assess_risk (rm : RiskManager) (token : EnhancedTokenMetadata)
    (technical : TechnicalAnalysis) (market : MarketContext) : RiskAssessment :=
  let volatility_risk := calculate_volatility_risk technical
  let liquidity_risk := calculate_liquidity_risk market
  let market_risk := calculate_market_risk market
  let concentration_risk := calculate_concentration_risk rm token.address
  let risk_factors :=
    (if volatility_risk > 0.7 then ["High volatility"] else []) ++
    (if liquidity_risk > 0.7 then ["Low liquidity"] else []) ++
    (if market_risk > 0.7 then ["High market risk"] else []) ++
    (if concentration_risk > 0.7 then ["High concentration risk"] else [])
  let risk_score := volatility_risk * 0.3 +
                    liquidity_risk * 0.3 +
                    market_risk * 0.2 +
                    concentration_risk * 0.2
  let max_position_size := calculate_max_position_size rm risk_score
  let stop_loss_price := calculate_stop_loss token technical
  let volatility_rating :=
    if volatility_risk < 0.2 then VolatilityRating.VeryLow
    else if volatility_risk < 0.4 then VolatilityRating.Low
    else if volatility_risk < 0.6 then VolatilityRating.Medium
    else if volatility_risk < 0.8 then VolatilityRating.High
    else VolatilityRating.VeryHigh
  let market_risk_level :=
    if market_risk < 0.3 then MarketRiskLevel.Low
    else if market_risk < 0.6 then MarketRiskLevel.Moderate
    else if market_risk < 0.8 then MarketRiskLevel.High
    else MarketRiskLevel.Extreme
  { risk_score := risk_score
    max_position_size := max_position_size
    stop_loss_price := stop_loss_price
    risk_factors := risk_factors
    volatility_rating := volatility_rating
    market_risk_level := market_risk_level
    concentration_risk := concentration_risk }

/-! ## ExecutionEngine (`strategy/execution.rs`) -/

/-- `ExecutionType` from `strategy/execution.rs`. -/
inductive ExecutionType where
  | Market : ExecutionType
  | Limit : ExecutionType
  | DCA : ExecutionType
deriving DecidableEq

/-- `OrderStatus` from `strategy/execution.rs`.  The source constructor names
are `Completed`, `Partial`, `Failed`; the middle one is rendered `PartFill`
here. -/
inductive OrderStatus where
  | Completed : OrderStatus
  | PartFill : OrderStatus
  | Failed : OrderStatus
deriving DecidableEq

/-- `ExecutionResult` from `strategy/execution.rs`.  The wall-clock
`execution_time` field is omitted (see the module header). -/
structure ExecutionResult where
  token_address : String
  action : TradeAction
  amount_sol : ℚ
  price : ℚ
  slippage : ℚ
  tx_signature : Option String
  execution_type : ExecutionType
  order_status : OrderStatus
deriving DecidableEq

/-- A Jupiter quote, keeping the two fields `execute_market_order` reads:
`quote.price` and `quote.price_impact_pct`. -/
structure Quote where
  price : ℚ
  price_impact_pct : ℚ
deriving DecidableEq

/-- The execution venue (Jupiter) as an environment: the outcome of the quote
and swap network calls of attempt number `k` (the value of the `attempts`
counter when the call is made).  A `.error` quote models
`self.jupiter.quote(..)?` failing; a swap `.ok sig` carries the transaction
signature. -/
structure Venue where
  quote : ℕ → Except String Quote
  swap : ℕ → Except String String

/-- The mutable engine state set up by `ExecutionEngine::new`
(`max_retries = 3`, and the configured `max_slippage`); the retry backoff
duration and wallet key play no role in any audited property. -/
structure ExecutionEngine where
  max_retries : ℕ
  max_slippage : ℚ
deriving DecidableEq

/-- `ExecutionEngine::new` (`strategy/execution.rs`): `max_retries` defaults
to 3. -/
def ExecutionEngine.new (max_slippage : ℚ) : ExecutionEngine :=
  { max_retries := 3, max_slippage := max_slippage }

/-- The retry loop of `ExecutionEngine::execute_market_order`
(`strategy/execution.rs`), unrolled on the remaining attempt budget
`engine.max_retries - attempts`.  Besides the Rust return value it also
returns the trace of quotes that were actually submitted to the venue (a swap
call was made for them) — the over-slippage branch re-loops without
submitting.  Each loop iteration increments `attempts` exactly once, so
attempt `k` consumes `venue.quote k` (and `venue.swap k` when it submits). -/
def execute_market_order_loop (engine : ExecutionEngine) (decision : TradingDecision)
    (venue : Venue) (attempts : ℕ) :
    (remaining : ℕ) → Except String ExecutionResult × List Quote
  | 0 =>
    (.error ("Failed to execute trade after " ++ toString engine.max_retries
      ++ " attempts"), [])
  | remaining + 1 =>
    match venue.quote attempts with
    | .error e => (.error e, [])
    | .ok quote =>
      let slippage := quote.price_impact_pct
      if slippage > engine.max_slippage then
        execute_market_order_loop engine decision venue (attempts + 1) remaining
      else
        match venue.swap attempts with
        | .ok signature =>
          (.ok { token_address := decision.token_address
                 action := decision.action
                 amount_sol := decision.size_in_sol
                 price := quote.price
                 slippage := slippage
                 tx_signature := some signature
                 execution_type := ExecutionType.Market
                 order_status := OrderStatus.Completed }, [quote])
        | .error _ =>
          let rest := execute_market_order_loop engine decision venue (attempts + 1) remaining
          (rest.1, quote :: rest.2)

/-- `ExecutionEngine::execute_market_order` (`strategy/execution.rs`):
`attempts` starts at 0 and the `while attempts < max_retries` loop grants
`max_retries` iterations.  (The `Pubkey::from_str` address parse preceding the
loop is venue-side library code and is not modelled.) -/
def execute_market_order (engine : ExecutionEngine) (decision : TradingDecision)
    (venue : Venue) : Except String ExecutionResult × List Quote :=
  execute_market_order_loop engine decision venue 0 engine.max_retries

/-- `ExecutionEngine::execute_dca_strategy` (`strategy/execution.rs`).  Each
tranche is an independent `execute_market_order` call; `venues i` is the venue
environment seen by tranche `i`.  The inter-tranche sleep is dropped. -/
def execute_dca_strategy (engine : ExecutionEngine) (decision : TradingDecision)
    (venues : ℕ → Venue) : Except String ExecutionResult :=
  match decision.execution_params.dca_config with
  | none => .error "DCA config not provided"
  | some dca_config =>
    let entry_size := decision.size_in_sol / (dca_config.num_entries : ℚ)
    let totals := (List.range dca_config.num_entries).foldl
      (fun (acc : ℚ × ℚ) i =>
        match (execute_market_order engine { decision with size_in_sol := entry_size }
            (venues i)).1 with
        | .ok result => (acc.1 + entry_size, acc.2 + entry_size * result.price)
        | .error _ => acc)
      (0, 0)
    let total_executed := totals.1
    let total_cost := totals.2
    let avg_price := if total_executed > 0 then total_cost / total_executed else 0.0
    .ok { token_address := decision.token_address
          action := decision.action
          amount_sol := total_executed
          price := avg_price
          slippage := 0.0
          tx_signature := none
          execution_type := ExecutionType.DCA
          order_status :=
            if total_executed ≥ decision.size_in_sol * 0.9 then OrderStatus.Completed
            else if total_executed > 0 then OrderStatus.PartFill
            else OrderStatus.Failed }

/-! ## Portfolio bookkeeping (`strategy/mod.rs`) -/

/-- The `PartialSell` record of `strategy/mod.rs` (rendered `PartSell` here):
one confirmed partial fill appended to a position's history. -/
structure PartSell where
  quantity : ℚ
  price_sol : ℚ
  timestamp : ℤ
  tx_signature : Option String
deriving DecidableEq

/-- `PortfolioPosition` from `strategy/mod.rs` (the `mongodb_id` document-id
field is dropped; `partial_sells` is rendered `part_sells`). -/
structure PortfolioPosition where
  token : EnhancedTokenMetadata
  quantity : ℚ
  cost_basis_sol : ℚ
  entry_timestamp : ℤ
  part_sells : List PartSell
deriving DecidableEq

/-- `TradingStrategy::record_partial_sell` (`strategy/mod.rs`), rendered
`record_part_sell`: look the position up by address (`Err` when absent),
append the `PartialSell` record and decrement the quantity.  The portfolio
`HashMap` is modelled as a map to `Option`; `now` is the wall-clock timestamp
the source reads. -/
def record_part_sell (portfolio : String → Option PortfolioPosition)
    (token_address : String) (quantity price_sol : ℚ) (now : ℤ) :
    Except String (String → Option PortfolioPosition) :=
  match portfolio token_address with
  | none => .error "Position not found"
  | some position =>
    let position' :=
      { position with
        part_sells := position.part_sells ++
          [{ quantity := quantity, price_sol := price_sol, timestamp := now
             tx_signature := none }]
        quantity := position.quantity - quantity }
    .ok (fun addr => if addr = token_address then some position' else portfolio addr)

/-! ## PositionMonitor (`strategy/pipeline.rs`) -/

/-- A take-profit ladder level as read by `monitor_positions`
(`strategy/pipeline.rs`): target price, exit size fraction and the
`triggered` flag. -/
structure TakeProfitLevel where
  price : ℚ
  size_percentage : ℚ
  triggered : Bool
deriving DecidableEq

/-- The position record `monitor_positions` iterates over: quantity held, the
optional stop-loss price and the optional take-profit ladder.  (The pipeline
reads `position.stop_loss` / `position.take_profit_levels`, fields absent from
the `PortfolioPosition` of `strategy/mod.rs`; this record carries exactly the
fields the monitor reads.) -/
structure MonitoredPosition where
  token : EnhancedTokenMetadata
  quantity : ℚ
  stop_loss : Option ℚ
  take_profit_levels : Option (List TakeProfitLevel)
deriving DecidableEq

/-- The `exit_size` computed by `TradingPipeline::execute_partial_exit`
(`strategy/pipeline.rs`), rendered `execute_part_exit_size`:
`position.quantity * level.size_percentage`. -/
def execute_part_exit_size (position : MonitoredPosition)
    (level : TakeProfitLevel) : ℚ :=
  position.quantity * level.size_percentage

/-- One `monitor_positions` cycle (`strategy/pipeline.rs`) for a single
position at the current market price.  Returns the position state after the
cycle and the sizes (in SOL) of the synthetic Sell decisions routed to the
execution engine: the full quantity on a stop-loss exit (`execute_exit`,
which then skips the take-profit scan via `continue`), else one
`execute_partial_exit` sell of `quantity * size_percentage` for every ladder
level with `current_price >= level.price && !level.triggered`.

The loop body performs no writes: `execute_partial_exit` borrows the position
and the level immutably, only synthesizes a Sell decision, and neither sets
`level.triggered` nor decrements `position.quantity` (nothing on this path
calls `record_partial_sell`), so the returned position equals the input. -/
def monitorTakeProfits (current_price : ℚ) (position : MonitoredPosition) : List ℚ :=
  match position.take_profit_levels with
  | some take_profits =>
    take_profits.filterMap (fun level =>
      if current_price ≥ level.price ∧ ¬level.triggered then
        some (execute_part_exit_size position level)
      else none)
  | none => []

/-- One `monitor_positions` cycle body for a single position (see the doc
comment above `monitorTakeProfits` for the take-profit scan). -/
def monitor_position (current_price : ℚ) (position : MonitoredPosition) :
    MonitoredPosition × List ℚ :=
  match position.stop_loss with
  | some stop_loss =>
    if current_price ≤ stop_loss then
      (position, [position.quantity])
    else
      (position, monitorTakeProfits current_price position)
  | none => (position, monitorTakeProfits current_price position)

/-! ## PerformanceAnalyzer (`strategy/analytics.rs`) -/

/-- The aggregate fields of `PerformanceMetrics` (`strategy/analytics.rs`).
Two derived fields are not carried: `sharpe_ratio` (its recomputation takes a
square root, which no audited property mentions) and the per-asset
`asset_performance` map (updated from fields disjoint from every audited
counter).  Every remaining source field is embedded. -/
structure PerformanceMetrics where
  total_trades : ℕ
  winning_trades : ℕ
  losing_trades : ℕ
  total_profit_loss : ℚ
  win_rate : ℚ
  average_return : ℚ
  max_drawdown : ℚ
  current_drawdown : ℚ
  risk_adjusted_return : ℚ
deriving DecidableEq

/-- `Trade` from `strategy/analytics.rs` (entry/exit wall-clock timestamps
omitted; they feed only the omitted per-asset `average_hold_time`). -/
structure Trade where
  token_address : String
  entry_price : ℚ
  exit_price : Option ℚ
  size_sol : ℚ
  profit_loss : Option ℚ
  strategy_name : String
  confidence_score : ℚ
  execution_type : String
deriving DecidableEq

/-- The `PerformanceAnalyzer` state (`strategy/analytics.rs`). -/
structure PerformanceAnalyzer where
  trades : List Trade
  metrics : PerformanceMetrics
  initial_capital : ℚ
  current_capital : ℚ
  peak_capital : ℚ
deriving DecidableEq

/-- `PerformanceAnalyzer::new` (`strategy/analytics.rs`). -/
def PerformanceAnalyzer.new (initial_capital : ℚ) : PerformanceAnalyzer :=
  { trades := []
    metrics :=
      { total_trades := 0, winning_trades := 0, losing_trades := 0
        total_profit_loss := 0, win_rate := 0, average_return := 0
        max_drawdown := 0, current_drawdown := 0, risk_adjusted_return := 0 }
    initial_capital := initial_capital
    current_capital := initial_capital
    peak_capital := initial_capital }

/-- `PerformanceAnalyzer::update_metrics` (`strategy/analytics.rs`): early
return when no trade is counted, else full recomputation of the derived
aggregates from the unchanged counters and the trade log (the drawdown replay
folds the per-trade P/L against a running peak-equity curve). -/
def update_metrics (pa : PerformanceAnalyzer) : PerformanceAnalyzer :=
  if pa.metrics.total_trades = 0 then
    pa
  else
    let win_rate := (pa.metrics.winning_trades : ℚ) / (pa.metrics.total_trades : ℚ)
    let average_return := pa.metrics.total_profit_loss / (pa.metrics.total_trades : ℚ)
    let replay := pa.trades.foldl
      (fun (acc : ℚ × ℚ × ℚ) trade =>
        match trade.profit_loss with
        | some pl =>
          let current_value := acc.2.2 + pl
          let peak := max acc.1 current_value
          let drawdown := (peak - current_value) / peak
          (peak, max acc.2.1 drawdown, current_value)
        | none => acc)
      (pa.initial_capital, 0, pa.initial_capital)
    let max_drawdown := replay.2.1
    let current_drawdown := (pa.peak_capital - pa.current_capital) / pa.peak_capital
    let risk_adjusted_return :=
      if max_drawdown > 0 then pa.metrics.total_profit_loss / max_drawdown
      else pa.metrics.total_profit_loss
    { pa with metrics :=
        { pa.metrics with
          win_rate := win_rate
          average_return := average_return
          max_drawdown := max_drawdown
          current_drawdown := current_drawdown
          risk_adjusted_return := risk_adjusted_return } }

/-- `PerformanceAnalyzer::record_trade` (`strategy/analytics.rs`): when the
trade carries a realized P/L, update capital and the win/loss counters
(strictly positive P/L wins, anything else — including zero — loses); in every
case append the trade to the log and recompute the derived metrics. -/
def record_trade (pa : PerformanceAnalyzer) (trade : Trade) : PerformanceAnalyzer :=
  let pa1 :=
    match trade.profit_loss with
    | some pl =>
      let current_capital := pa.current_capital + pl
      { pa with
        current_capital := current_capital
        peak_capital := max pa.peak_capital current_capital
        metrics :=
          { pa.metrics with
            total_trades := pa.metrics.total_trades + 1
            winning_trades :=
              if pl > 0 then pa.metrics.winning_trades + 1 else pa.metrics.winning_trades
            losing_trades :=
              if pl > 0 then pa.metrics.losing_trades else pa.metrics.losing_trades + 1
            total_profit_loss := pa.metrics.total_profit_loss + pl } }
    | none => pa
  update_metrics { pa1 with trades := pa1.trades ++ [trade] }

/-! ## Concrete sample inputs used by witnesses and counterexamples -/

/-- A sample strategy configuration (1 SOL cap, 0.01 SOL floor, minimum
confidence 0.5, max slippage 1%). -/
def sampleConfig : StrategyConfig :=
  { max_position_sol := 1, min_position_sol := 1/100, max_tokens := 10
    min_confidence := 1/2, min_liquidity_usd := 100000, max_slippage := 1/100 }

/-- Sample technical signals with full trend strength. -/
def sampleSignals : TechnicalSignals :=
  { trend_strength := 1, momentum_score := 0, volatility_score := 1/10
    support_resistance := [], signal_type := "bullish", timeframe := "1h" }

/-- A sample market context. -/
def sampleContext : MarketContext :=
  { market_trend := "uptrend", sector_performance := 0, liquidity_score := 1/2
    volume_profile := "Normal", sentiment_score := 0 }

/-- A well-formed oracle verdict with the four fields `make_decision` reads. -/
def mkOracleJson (confidence : ℚ) (momentum : String) (liquidity : ℚ)
    (flow : String) : Json :=
  .obj [("confidence", .num confidence),
        ("market_analysis", .obj
          [("momentum_indicators", .obj [("overall_momentum", .str momentum)]),
           ("liquidity_assessment", .obj [("liquidity_score", .num liquidity)]),
           ("on_chain_metrics", .obj [("smart_money_flow", .str flow)])])]

/-- An oracle verdict that clears every Buy gate of `sampleConfig`. -/
def buyAnalysis : Json := mkOracleJson (9/10) "strong_buy" (8/10) "inflow"

/-- A token quoted at 1 USD, used by the stop-loss and monitor evaluations. -/
def c6Token : EnhancedTokenMetadata :=
  { address := "tokenA", symbol := "TOKA", price_usd := some 1 }

/-- Technical signals with two support levels below the 1-USD price, ascending
as `find_support_resistance` produces them: 0.90 (10% below) and 0.95 (5%
below, the nearest). -/
def c6Signals : TechnicalAnalysis :=
  { trend_direction := TrendDirection.Sideways, trend_strength := 0
    support_levels := [9/10, 19/20], resistance_levels := []
    rsi_signal := RSISignal.Neutral, macd_signal := MACDSignal.Neutral
    volatility_score := 1/100 }

/-- The take-profit ladder level of the C8 scenario: target price 2, exit
fraction 0.5, not yet triggered. -/
def c8Level : TakeProfitLevel :=
  { price := 2, size_percentage := 1/2, triggered := false }

/-- The open position of the C8 scenario: quantity 10, no stop loss, one
untriggered take-profit level. -/
def c8Position : MonitoredPosition :=
  { token := c6Token, quantity := 10, stop_loss := none
    take_profit_levels := some [c8Level] }

/-- The position-size formula exactly as claim C7 states it (written out from
the claim's words, for comparison against the embedded code): base
`max_position × 0.2 × (1 − risk) × trend_strength`, multiplied by the
liquidity multiplier `min(liquidity × 1.5, 1)` and the momentum multiplier,
with clamping to `[min_position, max_position]` applied only once, as the
final step. -/
def claimC7_position_size (cfg : StrategyConfig)
    (risk_score trend_strength liquidity_score : ℚ) (momentum : String) : ℚ :=
  let base := cfg.max_position_sol * 0.2 * (1 - risk_score) * trend_strength
  let liquidity_multiplier := min (liquidity_score * 1.5) 1.0
  let momentum_multiplier :=
    if momentum = "strong_buy" then 1.0
    else if momentum = "buy" then 0.8
    else if momentum = "neutral" then 0.5
    else 0.3
  min (max (base * liquidity_multiplier * momentum_multiplier)
    cfg.min_position_sol) cfg.max_position_sol

/-- An oracle verdict with confidence 0.5 (different from the technical trend
strength 1 of `sampleSignals`), momentum strong_buy, liquidity 0.7, inflow. -/
def c7Analysis : Json := mkOracleJson (1/2) "strong_buy" (7/10) "inflow"

/-- A concrete in-flight market-order decision for execution evaluations. -/
def sampleDecision : TradingDecision :=
  { token_address := "tokenA", action := TradeAction.Buy, size_in_sol := 3
    confidence := 9/10, reasoning := "", risk_score := 1/5
    technical_signals := sampleSignals, market_context := sampleContext
    execution_params :=
      { entry_type := "market", time_horizon := "1h", stop_loss := 1/10
        take_profit := [], max_slippage := 1/100, dca_config := none } }

/-- A venue whose every quote carries a 10% price impact (over any 1% cap)
and whose swaps would succeed if ever submitted. -/
def overSlippageVenue : Venue :=
  { quote := fun _ => .ok { price := 1, price_impact_pct := 1/10 }
    swap := fun _ => .ok "sig" }

/-- Per-tranche venues for the C9 scenario: tranche 0 fills at price 1.0,
tranche 1 at 1.1, tranche 2 at 0.9, all with zero price impact, all swaps
succeeding. -/
def dcaVenues : ℕ → Venue := fun i =>
  { quote := fun _ => .ok
      { price := if i = 0 then 1 else if i = 1 then 11/10 else 9/10
        price_impact_pct := 0 }
    swap := fun _ => .ok "sig" }

/-- A concrete staged-entry decision: total size 3 SOL, three tranches. -/
def dcaDecision : TradingDecision :=
  { sampleDecision with
    execution_params :=
      { sampleDecision.execution_params with
        entry_type := "dca"
        dca_config :=
          some { num_entries := 3, time_between_entries := 24
                 size_per_entry := 1 } } }

/-- A trade with zero realized P/L, used by the C10 witness. -/
def zeroPLTrade : Trade :=
  { token_address := "tokenA", entry_price := 1, exit_price := some 1
    size_sol := 1, profit_loss := some 0, strategy_name := "llm"
    confidence_score := 1/2, execution_type := "market" }

/-- Field extraction on `mkOracleJson` recovers the confidence. -/
theorem oracleConfidence_mk (c : ℚ) (m : String) (l : ℚ) (f : String) :
    oracleConfidence (mkOracleJson c m l f) = c := rfl

/-- Field extraction on `mkOracleJson` recovers the momentum label. -/
theorem oracleMomentum_mk (c : ℚ) (m : String) (l : ℚ) (f : String) :
    oracleMomentum (mkOracleJson c m l f) = m := rfl

/-- Field extraction on `mkOracleJson` recovers the liquidity score. -/
theorem oracleLiquidity_mk (c : ℚ) (m : String) (l : ℚ) (f : String) :
    oracleLiquidity (mkOracleJson c m l f) = l := rfl

/-- Field extraction on `mkOracleJson` recovers the smart-money-flow label. -/
theorem oracleSmartMoneyFlow_mk (c : ℚ) (m : String) (l : ℚ) (f : String) :
    oracleSmartMoneyFlow (mkOracleJson c m l f) = f := rfl

/-! ## Claim theorems -/

/-- Claim C1: whenever `make_decision` emits a decision whose action is `Buy`,
the risk score is at most 0.3, and the oracle verdict parsed successfully with
confidence at least the configured minimum, oracle liquidity score at least
0.7, momentum `buy` or `strong_buy`, and smart-money-flow `inflow`.  In
particular no Buy is ever emitted with risk score above 0.3. -/
theorem buy_gated_by_risk_and_oracle (cfg : StrategyConfig) (tok : String)
    (parsed : Except String Json) (risk_score : ℚ) (sig : TechnicalSignals)
    (mkt : MarketContext)
    (h : ∃ d, make_decision cfg tok parsed risk_score sig mkt = .ok d ∧
      d.action = TradeAction.Buy) :
    risk_score ≤ 0.3 ∧ ∃ analysis, parsed = .ok analysis ∧
      oracleConfidence analysis ≥ cfg.min_confidence ∧
      oracleLiquidity analysis ≥ 0.7 ∧
      (oracleMomentum analysis = "strong_buy" ∨ oracleMomentum analysis = "buy") ∧
      oracleSmartMoneyFlow analysis = "inflow" := by
  obtain ⟨d, hd, hbuy⟩ := h
  cases parsed with
  | error e => simp [make_decision] at hd
  | ok analysis =>
    simp only [make_decision, Except.ok.injEq] at hd
    subst hd
    simp only [decide_action] at hbuy
    by_cases hc : oracleConfidence analysis ≥ cfg.min_confidence
        ∧ oracleLiquidity analysis ≥ 0.7
        ∧ risk_score ≤ 0.3
        ∧ (oracleMomentum analysis = "strong_buy" ∨ oracleMomentum analysis = "buy")
        ∧ oracleSmartMoneyFlow analysis = "inflow"
    · exact ⟨hc.2.2.1, analysis, rfl, hc.1, hc.2.1, hc.2.2.2.1, hc.2.2.2.2⟩
    · rw [if_neg hc] at hbuy
      split at hbuy <;> simp at hbuy

/-- Witness for C1 at a concrete Buy-producing input: oracle confidence 0.9,
momentum strong_buy, liquidity 0.8, inflow, risk score 0.2. -/
theorem buy_gated_by_risk_and_oracle_witness :
    (1/5 : ℚ) ≤ 0.3 ∧ ∃ analysis,
      (Except.ok buyAnalysis : Except String Json) = .ok analysis ∧
      oracleConfidence analysis ≥ sampleConfig.min_confidence ∧
      oracleLiquidity analysis ≥ 0.7 ∧
      (oracleMomentum analysis = "strong_buy" ∨ oracleMomentum analysis = "buy") ∧
      oracleSmartMoneyFlow analysis = "inflow" :=
  buy_gated_by_risk_and_oracle sampleConfig "tokenA" (.ok buyAnalysis) (1/5)
    sampleSignals sampleContext ⟨_, rfl, by
      show decide_action sampleConfig (1/5) buyAnalysis = TradeAction.Buy
      have hc : oracleConfidence buyAnalysis ≥ sampleConfig.min_confidence
          ∧ oracleLiquidity buyAnalysis ≥ 0.7
          ∧ (1/5 : ℚ) ≤ 0.3
          ∧ (oracleMomentum buyAnalysis = "strong_buy"
              ∨ oracleMomentum buyAnalysis = "buy")
          ∧ oracleSmartMoneyFlow buyAnalysis = "inflow" := by
        refine ⟨?_, ?_, by norm_num, Or.inl rfl, rfl⟩
        · rw [buyAnalysis, oracleConfidence_mk]
          norm_num [sampleConfig]
        · rw [buyAnalysis, oracleLiquidity_mk]
          norm_num
      simp only [decide_action]
      rw [if_pos hc]⟩

/-- The clamp `x.min(1.0).max(0.0)` is nonnegative. -/
theorem clamp01_nonneg (x : ℚ) : 0 ≤ max (min x 1.0) 0.0 :=
  le_max_of_le_right (by norm_num)

/-- The clamp `x.min(1.0).max(0.0)` is at most one. -/
theorem clamp01_le_one (x : ℚ) : max (min x 1.0) 0.0 ≤ 1 :=
  max_le (le_trans (min_le_right _ _) (by norm_num)) (by norm_num)

/-- Claim C3: for every risk-manager state, token, signals and market context,
the risk score of `assess_risk` equals exactly
0.3·volatility-risk + 0.3·liquidity-risk + 0.2·market-risk +
0.2·concentration-risk, where each of the four component scores (as computed
by its dedicated function) lies in [0,1] — each is clamped before
weighting. -/
theorem risk_score_is_weighted_sum (rm : RiskManager)
    (token : EnhancedTokenMetadata) (technical : TechnicalAnalysis)
    (market : MarketContext) :
    (assess_risk rm token technical market).risk_score =
        0.3 * calculate_volatility_risk technical
        + 0.3 * calculate_liquidity_risk market
        + 0.2 * calculate_market_risk market
        + 0.2 * calculate_concentration_risk rm token.address
      ∧ (0 ≤ calculate_volatility_risk technical
          ∧ calculate_volatility_risk technical ≤ 1)
      ∧ (0 ≤ calculate_liquidity_risk market
          ∧ calculate_liquidity_risk market ≤ 1)
      ∧ (0 ≤ calculate_market_risk market
          ∧ calculate_market_risk market ≤ 1)
      ∧ (0 ≤ calculate_concentration_risk rm token.address
          ∧ calculate_concentration_risk rm token.address ≤ 1) := by
  refine ⟨?_, ?_, ?_, ?_, ?_⟩
  · show calculate_volatility_risk technical * 0.3
        + calculate_liquidity_risk market * 0.3
        + calculate_market_risk market * 0.2
        + calculate_concentration_risk rm token.address * 0.2 = _
    ring
  · exact ⟨clamp01_nonneg _, clamp01_le_one _⟩
  · simp only [calculate_liquidity_risk]
    split
    · norm_num
    · exact ⟨clamp01_nonneg _, clamp01_le_one _⟩
  · exact ⟨clamp01_nonneg _, clamp01_le_one _⟩
  · exact ⟨clamp01_nonneg _, clamp01_le_one _⟩

/-- Claim C4, counterexample: at the concrete non-JSON oracle response
(serde parse outcome: a parse error), `make_decision` returns that error to
the caller instead of degrading to Hold; and at the concrete well-formed but
field-less response `{}` with risk score 0.8, the decision is Sell, not
Hold. -/
theorem oracle_error_not_hold_cx :
    make_decision sampleConfig "tokenA"
        (.error "expected value at line 1 column 1") (1/5) sampleSignals
        sampleContext = .error "expected value at line 1 column 1"
    ∧ (make_decision sampleConfig "tokenA" (.ok (Json.obj [])) (4/5)
        sampleSignals sampleContext).toOption.map (fun d => d.action) =
      some TradeAction.Sell := by
  refine ⟨rfl, ?_⟩
  show some (decide_action sampleConfig (4/5) (Json.obj [])) = _
  have h2 : oracleMomentum (Json.obj []) = "neutral" := rfl
  have h3 : oracleSmartMoneyFlow (Json.obj []) = "neutral" := rfl
  have h1 : oracleLiquidity (Json.obj []) = 0.0 := rfl
  have hs1 : ¬ (("neutral" : String) = "strong_sell") := by decide
  have hs2 : ¬ (("neutral" : String) = "outflow") := by decide
  simp only [decide_action, h1, h2, h3, hs1, hs2, or_false]
  norm_num

/-- Claim C4, amended: a response that is not well-formed JSON does not
degrade to Hold — `make_decision` propagates the parse error to the caller
(without panicking); a response that is valid JSON but missing the oracle
fields is read as the defaults (confidence 0, momentum and smart-money-flow
"neutral", liquidity 0), under which the decision is returned normally and is
never Buy: Hold when risk score ≤ 0.7 and Sell when risk score > 0.7. -/
theorem oracle_degradation_amended (cfg : StrategyConfig) (tok e : String)
    (r : ℚ) (sig : TechnicalSignals) (mkt : MarketContext) :
    make_decision cfg tok (.error e) r sig mkt = .error e
    ∧ (make_decision cfg tok (.ok (Json.obj [])) r sig mkt).toOption.map
        (fun d => d.action) =
      some (if r > 0.7 then TradeAction.Sell else TradeAction.Hold) := by
  refine ⟨rfl, ?_⟩
  show some (decide_action cfg r (Json.obj [])) = _
  have h2 : oracleMomentum (Json.obj []) = "neutral" := rfl
  have h3 : oracleSmartMoneyFlow (Json.obj []) = "neutral" := rfl
  have h1 : oracleLiquidity (Json.obj []) = 0.0 := rfl
  have hs1 : ¬ (("neutral" : String) = "strong_sell") := by decide
  have hs2 : ¬ (("neutral" : String) = "outflow") := by decide
  simp only [decide_action, h1, h2, h3, hs1, hs2, or_false]
  norm_num

/-- Claim C5: evaluation of the code at the failing input.  The ten-sample
price series of the source's own unit test (length 10 < 41) makes
`find_support_resistance` panic — the `usize` subtraction
`len - window_size` overflows for every length below 20, modelled as `none` —
instead of producing empty support/resistance lists as the claim (and the
spec, and the test's expectation of a normal return) requires. -/
theorem find_support_resistance_short_input_panics :
    find_support_resistance testPrices = none ∧ testPrices.length = 10 := by
  constructor
  · rfl
  · rfl

/-- Claim C6: evaluation of the code at the failing input.  With price 1 and
ascending support levels [0.90, 0.95], the nearest support level is 0.95,
whose relative distance 0.05 lies strictly inside (2%, 15%) — yet
`calculate_stop_loss` returns 0.90, the head (lowest, farthest) level of the
list, contradicting the claim's (and the source comment's) "nearest support
level". -/
theorem stop_loss_head_not_nearest :
    calculate_stop_loss c6Token c6Signals = some (9/10)
    ∧ (19/20 : ℚ) ∈ c6Signals.support_levels
    ∧ (9/10 : ℚ) < 19/20
    ∧ (0.02 : ℚ) < (1 - 19/20) / 1 ∧ ((1 : ℚ) - 19/20) / 1 < 0.15 := by
  refine ⟨?_, ?_, by norm_num, by norm_num, by norm_num⟩
  · norm_num [calculate_stop_loss, c6Signals, c6Token, List.head?]
  · simp [c6Signals]

/-- Claim C8: evaluation of the code at the failing input.  At price 2.5 ≥ the
level's target 2, one monitor cycle routes a partial-exit Sell of
10 × 0.5 = 5 — but leaves the position completely unchanged (quantity still
10, the level still untriggered, no `PartialSell` recorded), so the next
cycle's re-evaluation routes the same 5-unit sell again, contradicting the
claim's "leaves 5, marks the level triggered, does not re-trigger". -/
theorem take_profit_level_never_marked :
    (monitor_position (5/2) c8Position).2 = [5]
    ∧ (monitor_position (5/2) c8Position).1 = c8Position
    ∧ (monitor_position (5/2) ((monitor_position (5/2) c8Position).1)).2 = [5] := by
  refine ⟨?_, rfl, ?_⟩
  · norm_num [monitor_position, monitorTakeProfits, execute_part_exit_size,
      c8Position, c8Level, List.filterMap_cons, List.filterMap_nil]
  · norm_num [monitor_position, monitorTakeProfits, execute_part_exit_size,
      c8Position, c8Level, List.filterMap_cons, List.filterMap_nil]

/-- Claim C7, counterexample: at risk score 0, oracle confidence 0.5,
liquidity 0.7, momentum strong_buy and technical trend strength 1 under
`sampleConfig`, the code emits size 0.1 (it multiplies the base by the oracle
confidence, not by trend strength), while the claim's formula yields 0.2. -/
theorem position_size_formula_cx :
    (make_decision sampleConfig "tokenA" (.ok c7Analysis) 0 sampleSignals
        sampleContext).toOption.map (fun d => d.size_in_sol) = some (1/10)
    ∧ claimC7_position_size sampleConfig 0 sampleSignals.trend_strength
        (oracleLiquidity c7Analysis) (oracleMomentum c7Analysis) = 1/5
    ∧ (1/10 : ℚ) ≠ 1/5 := by
  refine ⟨?_, ?_, by norm_num⟩
  · show some (decide_size sampleConfig 0 c7Analysis) = _
    rw [c7Analysis]
    norm_num [decide_size, calculate_position_size, oracleConfidence_mk,
      oracleMomentum_mk, oracleLiquidity_mk, sampleConfig]
  · rw [c7Analysis, oracleLiquidity_mk, oracleMomentum_mk]
    norm_num [claimC7_position_size, sampleSignals, sampleConfig]

/-- Claim C7, amended: the emitted size follows the code's two-stage formula —
the base `max_position × 0.2 × (1 − risk) × confidence` (the oracle
confidence is passed where the helper's signature says trend strength) is
clamped to `[min_position, max_position]` inside `calculate_position_size`,
then multiplied by the liquidity multiplier `min(liquidity × 1.5, 1)` and the
momentum multiplier (strong_buy 1.0, buy 0.8, neutral 0.5, other 0.3), and
clamped a second, final time. -/
theorem position_size_amended (cfg : StrategyConfig) (tok : String)
    (analysis : Json) (r : ℚ) (sig : TechnicalSignals) (mkt : MarketContext)
    (d : TradingDecision)
    (h : make_decision cfg tok (.ok analysis) r sig mkt = .ok d) :
    d.size_in_sol =
      min (max ((min (max (cfg.max_position_sol * 0.2 * (1.0 - r) *
            oracleConfidence analysis) cfg.min_position_sol)
            cfg.max_position_sol)
          * min (oracleLiquidity analysis * 1.5) 1.0
          * (if oracleMomentum analysis = "strong_buy" then 1.0
             else if oracleMomentum analysis = "buy" then 0.8
             else if oracleMomentum analysis = "neutral" then 0.5
             else 0.3))
        cfg.min_position_sol) cfg.max_position_sol := by
  simp only [make_decision, Except.ok.injEq] at h
  subst h
  simp only [decide_size, calculate_position_size]

/-- Witness for C7's amended theorem at the concrete `c7Analysis` input. -/
theorem position_size_amended_witness :
    (make_decision sampleConfig "tokenA" (.ok c7Analysis) 0 sampleSignals
        sampleContext).toOption.map (fun d => d.size_in_sol) =
      some (min (max ((min (max (sampleConfig.max_position_sol * 0.2 *
            (1.0 - 0) * oracleConfidence c7Analysis)
            sampleConfig.min_position_sol) sampleConfig.max_position_sol)
          * min (oracleLiquidity c7Analysis * 1.5) 1.0
          * (if oracleMomentum c7Analysis = "strong_buy" then 1.0
             else if oracleMomentum c7Analysis = "buy" then 0.8
             else if oracleMomentum c7Analysis = "neutral" then 0.5
             else 0.3))
        sampleConfig.min_position_sol) sampleConfig.max_position_sol) := by
  have h := position_size_amended sampleConfig "tokenA" c7Analysis 0
    sampleSignals sampleContext _ rfl
  exact congrArg some h

/-- Every quote in the submission trace of the market-order retry loop
respects the engine's slippage cap: the over-slippage branch loops without
submitting. -/
theorem market_loop_submissions_bounded (engine : ExecutionEngine)
    (decision : TradingDecision) (venue : Venue) :
    ∀ remaining attempts q,
      q ∈ (execute_market_order_loop engine decision venue attempts remaining).2 →
      q.price_impact_pct ≤ engine.max_slippage := by
  intro remaining
  induction remaining with
  | zero =>
    intro attempts q hq
    simp only [execute_market_order_loop, List.not_mem_nil] at hq
  | succ n ih =>
    intro attempts q hq
    simp only [execute_market_order_loop] at hq
    cases hquote : venue.quote attempts with
    | error e =>
      rw [hquote] at hq
      simp at hq
    | ok quote =>
      rw [hquote] at hq
      dsimp only at hq
      by_cases hs : quote.price_impact_pct > engine.max_slippage
      · rw [if_pos hs] at hq
        exact ih _ q hq
      · rw [if_neg hs] at hq
        cases hswap : venue.swap attempts with
        | ok sig =>
          rw [hswap] at hq
          simp only [List.mem_singleton] at hq
          subst hq
          exact le_of_not_lt hs
        | error e =>
          rw [hswap] at hq
          dsimp only at hq
          rcases List.mem_cons.mp hq with h | h
          · subst h
            exact le_of_not_lt hs
          · exact ih _ q h

/-- When every attempt's quote succeeds but exceeds the slippage cap, the
retry loop submits nothing and returns the retries-exhausted error. -/
theorem market_loop_all_over_slippage (engine : ExecutionEngine)
    (decision : TradingDecision) (venue : Venue) :
    ∀ remaining attempts,
      (∀ j < remaining, ∃ q, venue.quote (attempts + j) = .ok q ∧
        q.price_impact_pct > engine.max_slippage) →
      execute_market_order_loop engine decision venue attempts remaining =
        (.error ("Failed to execute trade after " ++
          toString engine.max_retries ++ " attempts"), []) := by
  intro remaining
  induction remaining with
  | zero => intro attempts _; rfl
  | succ n ih =>
    intro attempts h
    obtain ⟨q, hq, hover⟩ := h 0 (Nat.succ_pos n)
    rw [Nat.add_zero] at hq
    simp only [execute_market_order_loop]
    rw [hq]
    dsimp only
    rw [if_pos hover]
    exact ih (attempts + 1) (fun j hj => by
      have h' := h (j + 1) (Nat.succ_lt_succ hj)
      rwa [show attempts + (j + 1) = attempts + 1 + j by omega] at h')

/-- Claim C2, amended: `execute_market_order` never submits an order whose
quoted price impact exceeds the configured `max_slippage` — such a quote
counts as one retry attempt and is re-quoted — and when every attempt's quote
exceeds the cap, the configured number of attempts (3 by default, from
`ExecutionEngine::new`) is exhausted and the call fails, without submitting
anything, with the generic retries-exhausted error
"Failed to execute trade after N attempts" (the code has no dedicated
SlippageExceeded error). -/
theorem market_order_never_submits_over_slippage (engine : ExecutionEngine)
    (decision : TradingDecision) (venue : Venue) :
    (∀ q ∈ (execute_market_order engine decision venue).2,
      q.price_impact_pct ≤ engine.max_slippage)
    ∧ ((∀ k < engine.max_retries, ∃ q, venue.quote k = .ok q ∧
          q.price_impact_pct > engine.max_slippage) →
        execute_market_order engine decision venue =
          (.error ("Failed to execute trade after " ++
            toString engine.max_retries ++ " attempts"), [])) :=
  ⟨fun q hq =>
    market_loop_submissions_bounded engine decision venue engine.max_retries 0 q hq,
   fun hbad =>
    market_loop_all_over_slippage engine decision venue engine.max_retries 0
      (fun j hj => by simpa using hbad j hj)⟩

/-- Witness for C2's amended theorem: at the default 3-retry engine with a 1%
cap against the all-over-slippage venue, the call fails with the
retries-exhausted error and an empty submission trace. -/
theorem market_order_never_submits_over_slippage_witness :
    execute_market_order (ExecutionEngine.new (1/100)) sampleDecision
        overSlippageVenue =
      (.error "Failed to execute trade after 3 attempts", []) :=
  (market_order_never_submits_over_slippage (ExecutionEngine.new (1/100))
      sampleDecision overSlippageVenue).2
    (fun k _ => ⟨{ price := 1, price_impact_pct := 1/10 }, rfl,
      by norm_num [ExecutionEngine.new]⟩)

/-- Claim C2, counterexample for the error identity: against a venue whose
every quote has 10% price impact and a 1% cap, the default engine exhausts
its 3 attempts and submits nothing, but the resulting failure is the generic
message "Failed to execute trade after 3 attempts", not a SlippageExceeded
error (no such error exists in the code). -/
theorem slippage_failure_error_name_cx :
    execute_market_order (ExecutionEngine.new (1/100)) sampleDecision
        overSlippageVenue =
      (.error "Failed to execute trade after 3 attempts", [])
    ∧ "Failed to execute trade after 3 attempts" ≠ "SlippageExceeded" := by
  constructor
  · exact market_loop_all_over_slippage (ExecutionEngine.new (1/100))
      sampleDecision overSlippageVenue 3 0
      (fun j _ => ⟨{ price := 1, price_impact_pct := 1/10 }, rfl,
        by norm_num [ExecutionEngine.new]⟩)
  · decide

/-- Each DCA tranche against `dcaVenues` fills on its first attempt at that
tranche's price. -/
theorem dca_tranche_eval (dd : TradingDecision) (i : ℕ) :
    (execute_market_order (ExecutionEngine.new (1/100)) dd (dcaVenues i)).1 =
      .ok { token_address := dd.token_address, action := dd.action
            amount_sol := dd.size_in_sol
            price := if i = 0 then 1 else if i = 1 then 11/10 else 9/10
            slippage := 0, tx_signature := some "sig"
            execution_type := ExecutionType.Market
            order_status := OrderStatus.Completed } := by
  show (execute_market_order_loop (ExecutionEngine.new (1/100)) dd (dcaVenues i)
    0 3).1 = _
  rw [show (3 : ℕ) = 2 + 1 from rfl]
  simp only [execute_market_order_loop, dcaVenues, ExecutionEngine.new]
  norm_num

/-- Claim C9: a staged (DCA) execution with `num_entries = 3` whose three
equal-size tranches all fill, at prices 1.0, 1.1 and 0.9, returns order
status Completed (100% ≥ 90% of the target size filled) and a volume-weighted
average price of exactly 1. -/
theorem dca_three_tranches_vwap_one (d : TradingDecision) (t : ℕ) (spe : ℚ)
    (hdca : d.execution_params.dca_config =
      some { num_entries := 3, time_between_entries := t, size_per_entry := spe })
    (hpos : 0 < d.size_in_sol) :
    (execute_dca_strategy (ExecutionEngine.new (1/100)) d dcaVenues).toOption.map
        (fun r => (r.order_status, r.price)) =
      some (OrderStatus.Completed, 1) := by
  simp only [execute_dca_strategy]
  rw [hdca]
  dsimp only
  rw [show List.range 3 = [0, 1, 2] from rfl]
  simp only [List.foldl, dca_tranche_eval]
  norm_num
  have hsum : d.size_in_sol / 3 + d.size_in_sol / 3 + d.size_in_sol / 3 =
      d.size_in_sol := by ring
  have hcost : d.size_in_sol / 3 + d.size_in_sol / 3 * (11/10) +
      d.size_in_sol / 3 * (9/10) = d.size_in_sol := by ring
  rw [hsum, hcost]
  refine ⟨_, rfl, ?_, ?_⟩
  · rw [if_pos (show d.size_in_sol * (9/10) ≤ d.size_in_sol by nlinarith)]
  · rw [if_pos hpos, div_self (ne_of_gt hpos)]

/-- Witness for C9 at the concrete 3-SOL staged decision. -/
theorem dca_three_tranches_vwap_one_witness :
    dcaDecision.execution_params.dca_config =
        some { num_entries := 3, time_between_entries := 24, size_per_entry := 1 }
    ∧ (0 : ℚ) < dcaDecision.size_in_sol
    ∧ (execute_dca_strategy (ExecutionEngine.new (1/100)) dcaDecision
        dcaVenues).toOption.map (fun r => (r.order_status, r.price)) =
      some (OrderStatus.Completed, 1) :=
  ⟨rfl, by norm_num [dcaDecision, sampleDecision],
    dca_three_tranches_vwap_one dcaDecision 24 1 rfl
      (by norm_num [dcaDecision, sampleDecision])⟩

/-- `update_metrics` leaves the total-trade counter unchanged. -/
theorem update_metrics_total (pa : PerformanceAnalyzer) :
    (update_metrics pa).metrics.total_trades = pa.metrics.total_trades := by
  unfold update_metrics
  split <;> simp

/-- `update_metrics` leaves the winning-trade counter unchanged. -/
theorem update_metrics_winning (pa : PerformanceAnalyzer) :
    (update_metrics pa).metrics.winning_trades = pa.metrics.winning_trades := by
  unfold update_metrics
  split <;> simp

/-- `update_metrics` leaves the losing-trade counter unchanged. -/
theorem update_metrics_losing (pa : PerformanceAnalyzer) :
    (update_metrics pa).metrics.losing_trades = pa.metrics.losing_trades := by
  unfold update_metrics
  split <;> simp

/-- `update_metrics` leaves the total P/L unchanged. -/
theorem update_metrics_pl (pa : PerformanceAnalyzer) :
    (update_metrics pa).metrics.total_profit_loss =
      pa.metrics.total_profit_loss := by
  unfold update_metrics
  split <;> simp

/-- `update_metrics` leaves the trade log unchanged. -/
theorem update_metrics_trades (pa : PerformanceAnalyzer) :
    (update_metrics pa).trades = pa.trades := by
  unfold update_metrics
  split <;> simp

/-- Claim C10: after every `record_trade` call, winning + losing = total
trades (given the invariant held before); a trade with `profit_loss = some 0`
counts as a losing trade (only strictly positive P/L wins); and a trade with
`profit_loss = none` is appended to the trade log while total, winning,
losing and total P/L are all unchanged. -/
theorem record_trade_counts (pa : PerformanceAnalyzer) (trade : Trade)
    (h : pa.metrics.winning_trades + pa.metrics.losing_trades =
      pa.metrics.total_trades) :
    ((record_trade pa trade).metrics.winning_trades +
        (record_trade pa trade).metrics.losing_trades =
      (record_trade pa trade).metrics.total_trades)
    ∧ (trade.profit_loss = some 0 →
        (record_trade pa trade).metrics.losing_trades =
            pa.metrics.losing_trades + 1
          ∧ (record_trade pa trade).metrics.winning_trades =
            pa.metrics.winning_trades)
    ∧ (trade.profit_loss = none →
        (record_trade pa trade).metrics.total_trades = pa.metrics.total_trades
          ∧ (record_trade pa trade).metrics.winning_trades =
            pa.metrics.winning_trades
          ∧ (record_trade pa trade).metrics.losing_trades =
            pa.metrics.losing_trades
          ∧ (record_trade pa trade).metrics.total_profit_loss =
            pa.metrics.total_profit_loss
          ∧ (record_trade pa trade).trades = pa.trades ++ [trade]) := by
  cases hpl : trade.profit_loss with
  | none =>
    refine ⟨?_, ?_, ?_⟩ <;>
      simp only [record_trade, hpl, update_metrics_total, update_metrics_winning,
        update_metrics_losing, update_metrics_pl, update_metrics_trades]
    · exact h
    · intro hc
      simp at hc
    · intro _
      exact ⟨trivial, trivial, trivial, trivial, trivial⟩
  | some pl =>
    refine ⟨?_, ?_, ?_⟩ <;>
      simp only [record_trade, hpl, update_metrics_total, update_metrics_winning,
        update_metrics_losing, update_metrics_pl, update_metrics_trades]
    · split_ifs <;> omega
    · intro hzero
      obtain rfl : pl = 0 := by simpa using hzero
      have h0 : ¬ ((0 : ℚ) > 0) := by norm_num
      rw [if_neg h0, if_neg h0]
      exact ⟨rfl, rfl⟩
    · intro hc
      simp at hc

/-- Witness for C10: the fresh analyzer (capital 10) recording a zero-P/L
trade. -/
theorem record_trade_counts_witness :
    ((PerformanceAnalyzer.new 10).metrics.winning_trades +
        (PerformanceAnalyzer.new 10).metrics.losing_trades =
      (PerformanceAnalyzer.new 10).metrics.total_trades)
    ∧ (((record_trade (PerformanceAnalyzer.new 10) zeroPLTrade).metrics.winning_trades +
          (record_trade (PerformanceAnalyzer.new 10) zeroPLTrade).metrics.losing_trades =
        (record_trade (PerformanceAnalyzer.new 10) zeroPLTrade).metrics.total_trades)
      ∧ (zeroPLTrade.profit_loss = some 0 →
          (record_trade (PerformanceAnalyzer.new 10) zeroPLTrade).metrics.losing_trades =
              (PerformanceAnalyzer.new 10).metrics.losing_trades + 1
            ∧ (record_trade (PerformanceAnalyzer.new 10) zeroPLTrade).metrics.winning_trades =
              (PerformanceAnalyzer.new 10).metrics.winning_trades)
      ∧ (zeroPLTrade.profit_loss = none →
          (record_trade (PerformanceAnalyzer.new 10) zeroPLTrade).metrics.total_trades =
              (PerformanceAnalyzer.new 10).metrics.total_trades
            ∧ (record_trade (PerformanceAnalyzer.new 10) zeroPLTrade).metrics.winning_trades =
              (PerformanceAnalyzer.new 10).metrics.winning_trades
            ∧ (record_trade (PerformanceAnalyzer.new 10) zeroPLTrade).metrics.losing_trades =
              (PerformanceAnalyzer.new 10).metrics.losing_trades
            ∧ (record_trade (PerformanceAnalyzer.new 10) zeroPLTrade).metrics.total_profit_loss =
              (PerformanceAnalyzer.new 10).metrics.total_profit_loss
            ∧ (record_trade (PerformanceAnalyzer.new 10) zeroPLTrade).trades =
              (PerformanceAnalyzer.new 10).trades ++ [zeroPLTrade])) :=
  ⟨rfl, record_trade_counts (PerformanceAnalyzer.new 10) zeroPLTrade rfl⟩

end RigSolanaTrader
